import Mathlib

/-!
Shallow embedding of the PresentLM repository (a slide-deck → narrated
presentation pipeline) and proofs of its specified properties.

Conventions of the embedding:
* Python floats that only ever hold durations/timestamps are modelled as `ℚ`.
* Python `bytes` are modelled as `List Nat` together with a validity
  hypothesis that every entry is `< 256` where it matters.
* Python exceptions are modelled as an error record carrying the exception
  class name and the message; fallible functions return `Except PyErr α`.
* External services (the PDF/PPTX libraries, the LLM/TTS providers, the
  wall clock) are modelled as explicit inputs (oracle values handed to the
  embedded function), so every definition is executable.
* `pygame` side effects (audio play/pause) and `print` calls are I/O glue
  with no influence on the data the claims speak about; they are dropped.
-/

namespace PresentLM

/-- A raised Python exception: its class name and its message. -/
structure PyErr where
  name : String
  msg : String
deriving Repr, DecidableEq

/-! ## Base64 (Python's `base64.b64encode` / `base64.b64decode`)

`Slide.to_dict` stores the optional raster-image bytes as a base64 string
and `Slide.from_dict` decodes it back.  The Python `base64` module is
standard-library code outside this repository; it is embedded here as the
RFC 4648 standard alphabet encoding with `=` padding, so that the
round-trip used by the session store is a proved fact rather than an
assumption. -/

def b64Alphabet : List Char :=
  "ABCDEFGHIJKLMNOPQRSTUVWXYZabcdefghijklmnopqrstuvwxyz0123456789+/".toList

/-- The base64 character for a sextet value. -/
def b64EncChar (n : Nat) : Char := b64Alphabet.getD n 'A'

/-- The sextet value of a base64 character. -/
def b64DecChar (c : Char) : Nat := b64Alphabet.indexOf c

/-- `base64.b64encode` over byte values: 3 bytes become 4 alphabet
characters; a trailing 2-byte (resp. 1-byte) group becomes 3 (resp. 2)
characters padded with `=`. -/
def b64encode : List Nat → List Char
  | b₁ :: b₂ :: b₃ :: rest =>
      b64EncChar (b₁ / 4) :: b64EncChar ((b₁ % 4) * 16 + b₂ / 16) ::
      b64EncChar ((b₂ % 16) * 4 + b₃ / 64) :: b64EncChar (b₃ % 64) :: b64encode rest
  | [b₁, b₂] =>
      [b64EncChar (b₁ / 4), b64EncChar ((b₁ % 4) * 16 + b₂ / 16),
       b64EncChar ((b₂ % 16) * 4), '=']
  | [b₁] => [b64EncChar (b₁ / 4), b64EncChar ((b₁ % 4) * 16), '=', '=']
  | [] => []

/-- `base64.b64decode` over characters: each 4-character group yields 3
bytes, or fewer when `=` padding ends the input. -/
def b64decode : List Char → List Nat
  | c₁ :: c₂ :: c₃ :: c₄ :: rest =>
      if c₃ = '=' then
        [b64DecChar c₁ * 4 + b64DecChar c₂ / 16]
      else if c₄ = '=' then
        [b64DecChar c₁ * 4 + b64DecChar c₂ / 16,
         (b64DecChar c₂ % 16) * 16 + b64DecChar c₃ / 4]
      else
        (b64DecChar c₁ * 4 + b64DecChar c₂ / 16) ::
        ((b64DecChar c₂ % 16) * 16 + b64DecChar c₃ / 4) ::
        ((b64DecChar c₃ % 4) * 64 + b64DecChar c₄) :: b64decode rest
  | _ => []

theorem b64DecChar_encChar {n : Nat} (h : n < 64) : b64DecChar (b64EncChar n) = n := by
  have key : ∀ i : Fin 64, b64DecChar (b64EncChar i.val) = i.val := by decide
  exact key ⟨n, h⟩

theorem b64EncChar_ne_pad (n : Nat) : b64EncChar n ≠ '=' := by
  by_cases h : n < 64
  · have key : ∀ i : Fin 64, b64EncChar i.val ≠ '=' := by decide
    exact key ⟨n, h⟩
  · have hlen : b64Alphabet.length ≤ n := by
      have : b64Alphabet.length = 64 := by decide
      omega
    unfold b64EncChar
    rw [List.getD_eq_default _ _ hlen]
    decide

theorem b64decode_encode : ∀ bs : List Nat, (∀ b ∈ bs, b < 256) →
    b64decode (b64encode bs) = bs
  | [], _ => rfl
  | [b₁], h => by
      have h₁ : b₁ < 256 := h b₁ (by simp)
      simp only [b64encode, b64decode, if_pos rfl, if_true,
        b64DecChar_encChar (show b₁ / 4 < 64 by omega),
        b64DecChar_encChar (show (b₁ % 4) * 16 < 64 by omega),
        List.cons.injEq, and_true]
      omega
  | [b₁, b₂], h => by
      have h₁ : b₁ < 256 := h b₁ (by simp)
      have h₂ : b₂ < 256 := h b₂ (by simp)
      simp only [b64encode, b64decode, if_neg (b64EncChar_ne_pad _), if_pos rfl, if_true,
        b64DecChar_encChar (show b₁ / 4 < 64 by omega),
        b64DecChar_encChar (show (b₁ % 4) * 16 + b₂ / 16 < 64 by omega),
        b64DecChar_encChar (show (b₂ % 16) * 4 < 64 by omega),
        List.cons.injEq, and_true]
      exact ⟨by omega, by omega⟩
  | b₁ :: b₂ :: b₃ :: rest, h => by
      have h₁ : b₁ < 256 := h b₁ (by simp)
      have h₂ : b₂ < 256 := h b₂ (by simp)
      have h₃ : b₃ < 256 := h b₃ (by simp)
      have hrest : ∀ b ∈ rest, b < 256 := fun b hb => h b (by simp [hb])
      simp only [b64encode, b64decode, if_neg (b64EncChar_ne_pad _),
        b64DecChar_encChar (show b₁ / 4 < 64 by omega),
        b64DecChar_encChar (show (b₁ % 4) * 16 + b₂ / 16 < 64 by omega),
        b64DecChar_encChar (show (b₂ % 16) * 4 + b₃ / 64 < 64 by omega),
        b64DecChar_encChar (show b₃ % 64 < 64 by omega),
        b64decode_encode rest hrest, List.cons.injEq]
      exact ⟨by omega, by omega, by omega, trivial⟩

theorem b64encode_ne_nil : ∀ bs : List Nat, bs ≠ [] → b64encode bs ≠ []
  | [], h => absurd rfl h
  | [_], _ => by simp [b64encode]
  | [_, _], _ => by simp [b64encode]
  | _ :: _ :: _ :: _, _ => by simp [b64encode]

/-! ## Slide records (src/core/slide_parser.py)

The dataclass `Slide(slide_number, title, content, notes, image_data)`.
Python `bytes` are `List Nat` (entries `< 256`); `image_data` is optional. -/

structure Slide where
  slide_number : Nat
  title : String
  content : String
  notes : String := ""
  image_data : Option (List Nat) := none
deriving Repr, DecidableEq

/-- The dictionary produced by `Slide.to_dict`: the `image_data` entry
holds the base64 text (or `None`), and `has_image` records
`image_data is not None`. -/
structure SlideDict where
  slide_number : Nat
  title : String
  content : String
  notes : String
  image_data : Option (List Char)
  has_image : Bool
deriving Repr, DecidableEq

/-- `Slide.to_dict`.  The source guards the base64 call with
`if self.image_data`, which is Python truthiness: both `None` and the
empty byte string store `None`; `has_image` uses `is not None` and so is
`true` even for empty bytes. -/
def Slide.to_dict (s : Slide) : SlideDict :=
  { slide_number := s.slide_number
    title := s.title
    content := s.content
    notes := s.notes
    image_data :=
      match s.image_data with
      | some bs => if bs = [] then none else some (b64encode bs)
      | none => none
    has_image := s.image_data.isSome }

/-- `Slide.from_dict`.  `data.get('image_data')` truthiness: a missing
entry or an empty string yields `None`; `data.get('notes', "")` is the
`notes` field, always present in dicts written by `to_dict`. -/
def Slide.from_dict (d : SlideDict) : Slide :=
  { slide_number := d.slide_number
    title := d.title
    content := d.content
    notes := d.notes
    image_data :=
      match d.image_data with
      | some cs => if cs = [] then none else some (b64decode cs)
      | none => none }

/-! ## Audio segments (src/core/tts_engine.py)

`AudioSegment` is the dataclass `AudioSegment(slide_number, audio_path,
duration, text)`.  `audio_path` (a `pathlib.Path`) is modelled as its
string form, `duration` as `ℚ`. -/

structure AudioSegment where
  slide_number : Nat
  audio_path : String
  duration : ℚ
  text : String
deriving Repr, DecidableEq

/-- `AudioSegment.to_dict` from src/core/tts_engine.py: the JSON dict has
exactly the four fields, with `audio_path` stringified (`str(self.audio_path)`). -/
structure AudioSegmentDict where
  slide_number : Nat
  audio_path : String
  duration : ℚ
  text : String
deriving Repr, DecidableEq

def AudioSegment.to_dict (a : AudioSegment) : AudioSegmentDict :=
  { slide_number := a.slide_number
    audio_path := a.audio_path
    duration := a.duration
    text := a.text }

/-- `AudioSegment.from_dict` (rebuilds `Path(data['audio_path'])`, modelled
as the string itself). -/
def AudioSegment.from_dict (d : AudioSegmentDict) : AudioSegment :=
  { slide_number := d.slide_number
    audio_path := d.audio_path
    duration := d.duration
    text := d.text }

/-! ## Narration records (src/core/narration_generator.py) -/

/-- The dataclass `SlideNarration(slide_number, narration_text,
estimated_duration)`. -/
structure SlideNarration where
  slide_number : Nat
  narration_text : String
  estimated_duration : ℚ
deriving Repr, DecidableEq

/-- The dictionary produced by `SlideNarration.to_dict`. -/
structure SlideNarrationDict where
  slide_number : Nat
  narration_text : String
  estimated_duration : ℚ
deriving Repr, DecidableEq

def SlideNarration.to_dict (n : SlideNarration) : SlideNarrationDict :=
  { slide_number := n.slide_number
    narration_text := n.narration_text
    estimated_duration := n.estimated_duration }

def SlideNarration.from_dict (d : SlideNarrationDict) : SlideNarration :=
  { slide_number := d.slide_number
    narration_text := d.narration_text
    estimated_duration := d.estimated_duration }

/-! ## Session store (src/utils/helpers.py)

`save_presentation_data` writes four JSON documents under a shared
`<timestamp>_` prefix in `base_dir`; `load_presentation_data` reads them
back.  The documents belonging to one `(timestamp, base_dir)` pair are
modelled as one record of four optional file contents (`none` = the file
does not exist on disk); `json.dump`/`json.load` themselves are Python
standard library, modelled as lossless storage of the typed dicts.  The
metadata dict passes through unchanged, so it is a type parameter. -/

structure SessionFiles (μ : Type) where
  slides_file : Option (List SlideDict)
  narrations_file : Option (List SlideNarrationDict)
  audio_file : Option (List AudioSegmentDict)
  metadata_file : Option μ

/-- `save_presentation_data(timestamp, slides, narrations, audio_segments,
metadata, base_dir)`: serialize each record list with its `to_dict` and
write all four documents.  (`[s.to_dict() ...] if audio_segments else []`
is the audio guard in the source.) -/
def save_presentation_data {μ : Type} (slides : List Slide)
    (narrations : List SlideNarration) (audio_segments : List AudioSegment)
    (metadata : μ) : SessionFiles μ :=
  { slides_file := some (slides.map Slide.to_dict)
    narrations_file := some (narrations.map SlideNarration.to_dict)
    audio_file := some (if audio_segments = [] then [] else audio_segments.map AudioSegment.to_dict)
    metadata_file := some metadata }

/-- The result dict of `load_presentation_data`. -/
structure LoadedPresentation (μ : Type) where
  slides : List Slide
  narrations : List SlideNarration
  audio_segments : List AudioSegment
  metadata : μ
deriving DecidableEq

/-- `load_presentation_data(timestamp, base_dir)`: read the four documents
back with `from_dict`.  A missing slides/narrations/metadata document makes
`load_json`'s `open` raise `FileNotFoundError`; a missing audio document
is tolerated (`audio_segments = []`, guarded by `audio_file.exists()`). -/
def load_presentation_data {μ : Type} (files : SessionFiles μ) :
    Except PyErr (LoadedPresentation μ) :=
  match files.slides_file with
  | none => .error ⟨"FileNotFoundError", "slides file missing"⟩
  | some slides_data =>
    match files.narrations_file with
    | none => .error ⟨"FileNotFoundError", "narrations file missing"⟩
    | some narrations_data =>
      let audio_segments :=
        match files.audio_file with
        | none => []
        | some audio_data => audio_data.map AudioSegment.from_dict
      match files.metadata_file with
      | none => .error ⟨"FileNotFoundError", "metadata file missing"⟩
      | some metadata =>
        .ok { slides := slides_data.map Slide.from_dict
              narrations := narrations_data.map SlideNarration.from_dict
              audio_segments := audio_segments
              metadata := metadata }

/-! ## The slide parser (src/core/slide_parser.py)

The PDF and PPTX libraries are external; a "valid deck" is modelled by
what the respective library extracts from it: per PDF page its text and
(for vision mode) its rendered pixmap bytes, per PPTX slide the title
placeholder, the texts of the other shapes and the speaker notes. -/

/-- One PDF page as seen through PyMuPDF: `page.get_text()` and the PNG
bytes of `page.get_pixmap(matrix)` at the parser's zoom. -/
structure PdfPage where
  text : String
  render : List Nat
deriving Repr, DecidableEq

/-- One PPTX slide as seen through python-pptx: the title placeholder's
text when `slide.shapes.title` exists, the texts of the non-title shapes
that have a `text` attribute, and the notes text frame when
`slide.has_notes_slide` holds and the frame exists. -/
structure PptxSlideSrc where
  title_shape : Option String
  body_texts : List String
  notes : Option String
deriving Repr, DecidableEq

/-- The page loop of `SlideParser._parse_pdf`, carrying `page_num` from
`enumerate(doc, start=1)`.  Title is the first line of the page text (the
`if lines` guard is unreachable for Python `split`, which never returns an
empty list), content the remaining lines. -/
def parsePdfPages (use_vision : Bool) : Nat → List PdfPage → List Slide
  | _, [] => []
  | page_num, page :: rest =>
    let lines := page.text.splitOn "\n"
    let title :=
      match lines with
      | [] => "Slide " ++ toString page_num
      | l :: _ => l
    let content := if lines.length > 1 then String.intercalate "\n" lines.tail else page.text
    let image_data := if use_vision then some page.render else none
    { slide_number := page_num
      title := title.trim
      content := content.trim
      notes := ""
      image_data := image_data } :: parsePdfPages use_vision (page_num + 1) rest

/-- `SlideParser._parse_pdf`. -/
def SlideParser.parse_pdf (use_vision : Bool) (doc : List PdfPage) : List Slide :=
  parsePdfPages use_vision 1 doc

/-- The slide loop of `SlideParser._parse_pptx`, carrying `slide_num` from
`enumerate(prs.slides, start=1)`.  `if shape.text` keeps only non-empty
shape texts; `title.strip() if title else f"Slide {n}"` is string
truthiness; the vision branch of the source is a placeholder `pass`, so
`image_data` stays `None`. -/
def parsePptxSlides (use_vision : Bool) : Nat → List PptxSlideSrc → List Slide
  | _, [] => []
  | slide_num, s :: rest =>
    let title := s.title_shape.getD ""
    let content_parts := s.body_texts.filter (fun t => t ≠ "")
    let notes := s.notes.getD ""
    let content := String.intercalate "\n" content_parts
    { slide_number := slide_num
      title := if title ≠ "" then title.trim else "Slide " ++ toString slide_num
      content := content.trim
      notes := notes.trim
      image_data := none } :: parsePptxSlides use_vision (slide_num + 1) rest

/-- `SlideParser._parse_pptx`. -/
def SlideParser.parse_pptx (use_vision : Bool) (doc : List PptxSlideSrc) : List Slide :=
  parsePptxSlides use_vision 1 doc

/-- Python `str.lower()` over a path suffix: lowercase every character
(ASCII suffices for the extension comparison; this is `String.toLower`,
restated by structural recursion over the character list so that it
evaluates). -/
def pyLower (s : String) : String := ⟨s.data.map Char.toLower⟩

/-- `SlideParser.parse`: dispatch on `file_path.suffix.lower()`; `.pdf`
goes to `_parse_pdf`, `.pptx`/`.ppt` to `_parse_pptx`, anything else
raises `ValueError(f"Unsupported file format: \x7bfile_extension\x7d")`
before anything is read or produced.  The two oracle documents stand for
what the corresponding library would extract from the file at
`file_path`. -/
def SlideParser.parse (use_vision : Bool) (suffix : String)
    (pdf_doc : List PdfPage) (pptx_doc : List PptxSlideSrc) :
    Except PyErr (List Slide) :=
  let file_extension := pyLower suffix
  if file_extension = ".pdf" then
    .ok (SlideParser.parse_pdf use_vision pdf_doc)
  else if file_extension = ".pptx" ∨ file_extension = ".ppt" then
    .ok (SlideParser.parse_pptx use_vision pptx_doc)
  else
    .error ⟨"ValueError", "Unsupported file format: " ++ file_extension⟩

/-! ## The narration generator (src/core/narration_generator.py)

The LLM service is external: for the per-slide mode the oracle maps the
request (current slide, the previous slides that feed the prompt's rolling
summary, optional context) to the stripped response text; for the
continuous mode the oracle is the parsed structured response
(`parsed_response["narrations"]`), a list of
`{"slide_number": ..., "narration": ...}` entries. -/

/-- One entry of the continuous mode's structured response. -/
structure NarrEntry where
  slide_number : Nat
  narration : String
deriving Repr, DecidableEq

/-- Python `narration_segment.endswith(".")`: suffix test on the
character list (this is `String.endsWith`, restated by structural
recursion so that it evaluates). -/
def pyEndsWith (s suf : String) : Bool := suf.data.isSuffixOf s.data

/-- Python `len(text.split())`: split on whitespace runs, dropping empty
pieces. -/
def pyWordCount (text : String) : Nat :=
  ((text.split Char.isWhitespace).filter (fun w => w ≠ "")).length

/-- The duration estimate `(word_count / 150) * 60` used uniformly by the
generator. -/
def estimatedDurationOf (text : String) : ℚ :=
  (pyWordCount text : ℚ) / 150 * 60

/-- `NarrationGenerator._generate_single_narration`: build the prompt and
call the selected provider.  Both provider branches first evaluate

  `slide.image_data_compressed if (self.use_vision and slide.image_data_compressed) else None`

(narration_generator.py lines 148 and 151).  When `use_vision` is falsy
the `and` short-circuits and the call proceeds without an image; when
`use_vision` is truthy the attribute read itself raises `AttributeError`,
because the `Slide` dataclass defines no `image_data_compressed` field and
no code in the repository ever assigns that attribute — its only
occurrences are the two read sites here and one in question_handler.py.
(The actual Python message additionally quotes the class and attribute
names.) -/
def generate_single_narration (use_vision : Bool)
    (llm : Slide → List Slide → Option String → String)
    (slide : Slide) (previous_slides : List Slide) (context : Option String) :
    Except PyErr String :=
  if use_vision then
    .error ⟨"AttributeError", "Slide object has no attribute image_data_compressed"⟩
  else
    .ok (llm slide previous_slides context)

/-- The `for slide in slides` loop of the slide-by-slide branch of
`generate_narration`: one request per slide in order (`previous_slides =
slides[:slide.slide_number-1]` taken from the full batch), one
`SlideNarration` per slide carrying that slide's number and the
word-count duration estimate; an exception from
`_generate_single_narration` propagates and aborts the loop. -/
def slideBySlideLoop (use_vision : Bool)
    (llm : Slide → List Slide → Option String → String)
    (all_slides : List Slide) (context : Option String) :
    List Slide → Except PyErr (List SlideNarration)
  | [] => .ok []
  | slide :: rest =>
    match generate_single_narration use_vision llm slide
        (all_slides.take (slide.slide_number - 1)) context with
    | .error e => .error e
    | .ok narration_text =>
      match slideBySlideLoop use_vision llm all_slides context rest with
      | .error e => .error e
      | .ok narrations =>
        .ok ({ slide_number := slide.slide_number
               narration_text := narration_text
               estimated_duration := (pyWordCount narration_text : ℚ) / 150 * 60 }
          :: narrations)

/-- The slide-by-slide branch of `NarrationGenerator.generate_narration`. -/
def generate_narration_slide_by_slide (use_vision : Bool)
    (llm : Slide → List Slide → Option String → String)
    (slides : List Slide) (context : Option String) :
    Except PyErr (List SlideNarration) :=
  slideBySlideLoop use_vision llm slides context slides

/-- The response post-processing loop shared verbatim by
`_generate_continuous_narration_text_only` (lines 830-850) and
`_generate_continuous_narration_multimodal` (lines 701-717): look the
slide's number up in the structured response (`next(...)`), substitute
`""` when absent, append `" (truncated)"` unless the text ends with a
period, estimate the duration from the word count. -/
def buildContinuousNarrations (slides : List Slide)
    (narration_data : List NarrEntry) : List SlideNarration :=
  slides.map fun slide =>
    let found := narration_data.find? (fun item => item.slide_number = slide.slide_number)
    let narration_segment :=
      match found with
      | some item => item.narration
      | none => ""
    let narration_segment :=
      if pyEndsWith narration_segment "." then narration_segment
      else narration_segment ++ " (truncated)"
    let word_count := pyWordCount narration_segment
    { slide_number := slide.slide_number
      narration_text := narration_segment
      estimated_duration := (word_count : ℚ) / 150 * 60 }

/-- `NarrationGenerator._generate_continuous_narration_text_only`, with
the provider call and JSON parse replaced by the parsed structured
response. -/
def generate_continuous_narration_text_only (narration_data : List NarrEntry)
    (slides : List Slide) : List SlideNarration :=
  buildContinuousNarrations slides narration_data

/-- `NarrationGenerator._generate_continuous_narration_multimodal`, with
the provider call and JSON parse replaced by the parsed structured
response; its narration-building loop is identical to the text-only
one. -/
def generate_continuous_narration_multimodal (narration_data : List NarrEntry)
    (slides : List Slide) : List SlideNarration :=
  buildContinuousNarrations slides narration_data

/-- Python truthiness of an optional byte string (`None` and `b""` are
falsy). -/
def pyTruthyBytes : Option (List Nat) → Bool
  | some bs => !bs.isEmpty
  | none => false

/-- `NarrationGenerator._generate_continuous_narration`: vision is used
for the batch when the flag is set and `any(slide.image_data ...)`. -/
def generate_continuous_narration (use_vision : Bool)
    (narration_data : List NarrEntry) (slides : List Slide) : List SlideNarration :=
  if use_vision ∧ slides.any (fun s => pyTruthyBytes s.image_data) then
    generate_continuous_narration_multimodal narration_data slides
  else
    generate_continuous_narration_text_only narration_data slides

/-- `NarrationGenerator.generate_narration`: dispatch on `mode`
(`"continuous"` vs the slide-by-slide default).  The benchmark timer
start/end around the branch only mutates the global tracker and the
returned `duration` is printed, so it does not affect the returned
narrations (on the exception path the timer is simply never ended).  The
continuous branch works on the parsed structured response, so with that
oracle in hand it returns normally; the slide-by-slide branch propagates
the `AttributeError` of `_generate_single_narration` whenever vision is
enabled. -/
def generate_narration (mode : String) (use_vision : Bool)
    (llm : Slide → List Slide → Option String → String)
    (narration_data : List NarrEntry)
    (slides : List Slide) (context : Option String) :
    Except PyErr (List SlideNarration) :=
  if mode = "continuous" then
    .ok (generate_continuous_narration use_vision narration_data slides)
  else
    generate_narration_slide_by_slide use_vision llm slides context

/-! ## The benchmark tracker (src/utils/benchmark.py) -/

/-- The dataclass `BenchmarkEvent`.  `timestamp` is the `datetime.now()`
at creation, modelled on the same rational clock as the timers; `metadata`
is a string dict. -/
structure BenchmarkEvent where
  component : String
  operation : String
  duration_seconds : ℚ
  timestamp : ℚ
  metadata : List (String × String)
deriving Repr, DecidableEq

/-- `BenchmarkTracker`: its event list and the `_start_times` dict
(modelled as an association list in insertion order).  The lock, the
output path and the auto-save flag only guard persistence
(`_persist_if_configured` rewrites a JSON snapshot and never touches
`events` or `_start_times`), so they are not part of the model. -/
structure BenchmarkTracker where
  session_id : String
  events : List BenchmarkEvent
  start_times : List (String × ℚ)
deriving Repr, DecidableEq

/-- Python dict assignment `d[k] = v`: replace the value in place when the
key exists, otherwise append. -/
def dictInsert (k : String) (v : ℚ) : List (String × ℚ) → List (String × ℚ)
  | [] => [(k, v)]
  | p :: rest => if p.1 = k then (k, v) :: rest else p :: dictInsert k v rest

namespace BenchmarkTracker

/-- `start_timer(timer_id)` at clock value `now`
(`self._start_times[timer_id] = time.time()`). -/
def start_timer (t : BenchmarkTracker) (timer_id : String) (now : ℚ) :
    BenchmarkTracker :=
  { t with start_times := dictInsert timer_id now t.start_times }

/-- `end_timer(timer_id, component, operation, metadata)` at clock value
`now`: raise `ValueError` when the timer id is absent (the source message
quotes the id: `Timer '<id>' was never started`); otherwise the duration
is `now` minus the start time, the id is deleted from `_start_times`, and
exactly one `BenchmarkEvent` is appended.  Returns the new tracker and the
duration. -/
def end_timer (t : BenchmarkTracker) (timer_id component operation : String)
    (metadata : List (String × String)) (now : ℚ) :
    Except PyErr (BenchmarkTracker × ℚ) :=
  match t.start_times.find? (fun p => p.1 = timer_id) with
  | none => .error ⟨"ValueError", "Timer " ++ timer_id ++ " was never started"⟩
  | some p =>
    let duration := now - p.2
    let event : BenchmarkEvent :=
      { component := component
        operation := operation
        duration_seconds := duration
        timestamp := now
        metadata := metadata }
    .ok ({ t with
            start_times := t.start_times.filter (fun q => q.1 ≠ timer_id)
            events := t.events ++ [event] }, duration)

end BenchmarkTracker

/-! ## Background audio generation (src/ui/app.py, `generate_audio_background`)

The worker thread walks the narrations in order; for each index it calls
`tts.generate_audio` (here: the pre-recorded outcome `results[idx]`,
`some segment` on success, `none` when the call raised — the `except`
branch leaves `ready_flags[idx]` at `False` and continues).  After every
attempt it writes the progress file `{"ready": ..., "complete": False}`;
after the loop it writes the final `{"ready": ..., "complete": True}`. -/

structure AudioProgress where
  ready : List Bool
  complete : Bool
deriving Repr, DecidableEq

/-- The per-slide loop: returns the final `ready_flags` and the sequence
of per-iteration progress writes. -/
def audioBatchLoop : List Bool → Nat → List (Option AudioSegment) →
    List Bool × List AudioProgress
  | flags, _, [] => (flags, [])
  | flags, idx, r :: rest =>
    let flags' := flags.set idx r.isSome
    let (final, writes) := audioBatchLoop flags' (idx + 1) rest
    (final, { ready := flags', complete := false } :: writes)

/-- `generate_audio_background` over the outcomes of the synthesis calls:
initial flags are `[False] * len(narrations)`, each slide is attempted in
order, and the completion write happens once after the loop.  Returns the
final flags and every progress write the thread performs. -/
def generate_audio_background (results : List (Option AudioSegment)) :
    List Bool × List AudioProgress :=
  let (flags, writes) := audioBatchLoop (List.replicate results.length false) 0 results
  (flags, writes ++ [{ ready := flags, complete := true }])

/-! ## The playback state machine (src/core/temporal_sync.py) -/

/-- The dataclass `PresentationState` of src/core/temporal_sync.py. -/
structure PresentationState where
  current_slide : Nat
  is_playing : Bool
  is_paused : Bool
  current_time : ℚ
  total_duration : ℚ
  in_question_mode : Bool := false
deriving Repr, DecidableEq

/-- `TemporalSynchronizer`: its constructor arguments plus its mutable
state.  The `threading.Event` used as pause flag is a `Bool`; the pygame
mixer handle, the callbacks and the playback thread are I/O glue.  A
slide-change notification (a call to the registered `on_slide_change`
callback) is modelled as an emitted event value. -/
structure TemporalSynchronizer where
  audio_segments : List AudioSegment
  auto_advance : Bool
  state : PresentationState
  pause_event : Bool
deriving Repr, DecidableEq

namespace TemporalSynchronizer

/-- `TemporalSynchronizer.__init__(audio_segments, auto_advance)`:
`current_slide = 1`, not playing, not paused, `total_duration` is the sum of
the segments' durations. -/
def init (audio_segments : List AudioSegment) (auto_advance : Bool) :
    TemporalSynchronizer :=
  { audio_segments := audio_segments
    auto_advance := auto_advance
    state :=
      { current_slide := 1
        is_playing := false
        is_paused := false
        current_time := 0
        total_duration := (audio_segments.map AudioSegment.duration).sum }
    pause_event := false }

/-- `start_presentation`: reset to slide 1, playing, not paused (the
stop event and the playback thread are I/O glue). -/
def start_presentation (t : TemporalSynchronizer) : TemporalSynchronizer :=
  { t with state := { t.state with current_slide := 1, is_playing := true, is_paused := false } }

/-- `pause`: only when `is_playing`, set `is_paused` and the pause event
(`pygame.mixer.music.pause()` is an external effect). -/
def pause (t : TemporalSynchronizer) : TemporalSynchronizer :=
  if t.state.is_playing then
    { t with state := { t.state with is_paused := true }, pause_event := true }
  else t

/-- `resume`: only when `is_paused`, clear `is_paused` and the pause event. -/
def resume (t : TemporalSynchronizer) : TemporalSynchronizer :=
  if t.state.is_paused then
    { t with state := { t.state with is_paused := false }, pause_event := false }
  else t

/-- `interrupt_for_question`: set the question-mode flag, then `pause()`. -/
def interrupt_for_question (t : TemporalSynchronizer) : TemporalSynchronizer :=
  pause { t with state := { t.state with in_question_mode := true } }

/-- `resume_after_question`: clear the question-mode flag, then `resume()`. -/
def resume_after_question (t : TemporalSynchronizer) : TemporalSynchronizer :=
  resume { t with state := { t.state with in_question_mode := false } }

/-- `next_slide`: advance when `current_slide < len(audio_segments)`,
firing the slide-change notification with the new index; otherwise do
nothing.  The returned list is the sequence of notifications issued. -/
def next_slide (t : TemporalSynchronizer) : TemporalSynchronizer × List Nat :=
  if t.state.current_slide < t.audio_segments.length then
    let t' := { t with state := { t.state with current_slide := t.state.current_slide + 1 } }
    (t', [t'.state.current_slide])
  else (t, [])

/-- `previous_slide`: go back when `current_slide > 1`, firing the
slide-change notification; otherwise do nothing. -/
def previous_slide (t : TemporalSynchronizer) : TemporalSynchronizer × List Nat :=
  if t.state.current_slide > 1 then
    let t' := { t with state := { t.state with current_slide := t.state.current_slide - 1 } }
    (t', [t'.state.current_slide])
  else (t, [])

/-- `go_to_slide(n)`: jump when `1 <= n <= len(audio_segments)`, firing the
slide-change notification; otherwise do nothing. -/
def go_to_slide (t : TemporalSynchronizer) (slide_number : Nat) :
    TemporalSynchronizer × List Nat :=
  if 1 ≤ slide_number ∧ slide_number ≤ t.audio_segments.length then
    let t' := { t with state := { t.state with current_slide := slide_number } }
    (t', [t'.state.current_slide])
  else (t, [])

/-- `get_progress`: `0.0` when `total_duration == 0`, otherwise the summed
durations of the segments before `current_slide - 1` over the total, times
100. -/
def get_progress (t : TemporalSynchronizer) : ℚ :=
  if t.state.total_duration = 0 then 0
  else
    let elapsed :=
      ((t.audio_segments.take (t.state.current_slide - 1)).map AudioSegment.duration).sum
    elapsed / t.state.total_duration * 100

end TemporalSynchronizer

/-! ## Helper lemmas -/

/-- A well-formed image payload: absent, or non-empty bytes. -/
def validImage (o : Option (List Nat)) : Prop :=
  match o with
  | some bs => bs ≠ [] ∧ ∀ b ∈ bs, b < 256
  | none => True

instance validImage.dec (o : Option (List Nat)) : Decidable (validImage o) :=
  match o with
  | some bs => inferInstanceAs (Decidable (bs ≠ [] ∧ ∀ b ∈ bs, b < 256))
  | none => inferInstanceAs (Decidable True)

theorem slide_from_dict_to_dict (s : Slide) (h : validImage s.image_data) :
    Slide.from_dict (Slide.to_dict s) = s := by
  obtain ⟨num, title, content, notes, img⟩ := s
  cases img with
  | none => rfl
  | some bs =>
    obtain ⟨hne, hlt⟩ := h
    simp only [Slide.to_dict, Slide.from_dict, if_neg hne]
    simp only [Slide.mk.injEq, true_and]
    rw [if_neg (b64encode_ne_nil bs hne)]
    rw [b64decode_encode bs hlt]

theorem narration_from_dict_to_dict (n : SlideNarration) :
    SlideNarration.from_dict (SlideNarration.to_dict n) = n := rfl

theorem audio_segment_from_dict_to_dict (a : AudioSegment) :
    AudioSegment.from_dict (AudioSegment.to_dict a) = a := rfl

theorem parsePdfPages_length (v : Bool) :
    ∀ (doc : List PdfPage) (k : Nat), (parsePdfPages v k doc).length = doc.length
  | [], _ => rfl
  | _ :: rest, k => by
      simp only [parsePdfPages, List.length_cons, parsePdfPages_length v rest (k + 1)]

theorem parsePdfPages_numbers (v : Bool) :
    ∀ (doc : List PdfPage) (k : Nat),
      (parsePdfPages v k doc).map Slide.slide_number = List.range' k doc.length
  | [], _ => rfl
  | _ :: rest, k => by
      simp only [parsePdfPages, List.map_cons, List.length_cons, List.range'_succ,
        parsePdfPages_numbers v rest (k + 1)]

theorem parsePptxSlides_length (v : Bool) :
    ∀ (doc : List PptxSlideSrc) (k : Nat), (parsePptxSlides v k doc).length = doc.length
  | [], _ => rfl
  | _ :: rest, k => by
      simp only [parsePptxSlides, List.length_cons, parsePptxSlides_length v rest (k + 1)]

theorem parsePptxSlides_numbers (v : Bool) :
    ∀ (doc : List PptxSlideSrc) (k : Nat),
      (parsePptxSlides v k doc).map Slide.slide_number = List.range' k doc.length
  | [], _ => rfl
  | _ :: rest, k => by
      simp only [parsePptxSlides, List.map_cons, List.length_cons, List.range'_succ,
        parsePptxSlides_numbers v rest (k + 1)]

theorem buildContinuousNarrations_get? (slides : List Slide)
    (narration_data : List NarrEntry) (i : Nat) (s : Slide)
    (hs : slides.get? i = some s) :
    ((buildContinuousNarrations slides narration_data).get? i).map
        SlideNarration.narration_text
      = some (match narration_data.find?
            (fun item => item.slide_number = s.slide_number) with
          | some item =>
              if pyEndsWith item.narration "." then item.narration
              else item.narration ++ " (truncated)"
          | none => " (truncated)") := by
  unfold buildContinuousNarrations
  rw [List.get?_eq_getElem?] at hs ⊢
  rw [List.getElem?_map, hs]
  cases hfind : narration_data.find? (fun item => item.slide_number = s.slide_number) with
  | none => simp [hfind, pyEndsWith, List.isSuffixOf]
  | some item => simp [hfind]

theorem find?_dictInsert (k : String) (v : ℚ) :
    ∀ d : List (String × ℚ), (dictInsert k v d).find? (fun p => p.1 = k) = some (k, v)
  | [] => by simp [dictInsert]
  | p :: rest => by
      by_cases hp : p.1 = k
      · simp [dictInsert, hp]
      · simp [dictInsert, hp, find?_dictInsert k v rest]

/-! ## The claims -/

/-- Claim C1 (as stated, refuted half): the claim asserts that a
`ResumeAfterQuestion` after an interrupt that occurred while `Paused`
restores the pre-interrupt intent `Paused`.  On the code it does not:
`resume_after_question` calls `resume()` unconditionally, which clears
`is_paused` whenever it is set.  Concretely, start the presentation, pause
it (a reachable `Paused` state: `is_playing ∧ is_paused`), interrupt for a
question and resume after the question: the final state is `Playing`
(`is_paused = false`), not `Paused`. -/
theorem C1_counterexample :
    (TemporalSynchronizer.pause (TemporalSynchronizer.start_presentation
        (TemporalSynchronizer.init [⟨1, "audio_1.mp3", 5, "hello"⟩] true))).state.is_playing
        = true ∧
    (TemporalSynchronizer.pause (TemporalSynchronizer.start_presentation
        (TemporalSynchronizer.init [⟨1, "audio_1.mp3", 5, "hello"⟩] true))).state.is_paused
        = true ∧
    (TemporalSynchronizer.resume_after_question (TemporalSynchronizer.interrupt_for_question
        (TemporalSynchronizer.pause (TemporalSynchronizer.start_presentation
        (TemporalSynchronizer.init [⟨1, "audio_1.mp3", 5, "hello"⟩] true))))).state.is_paused
        = false ∧
    (TemporalSynchronizer.resume_after_question (TemporalSynchronizer.interrupt_for_question
        (TemporalSynchronizer.pause (TemporalSynchronizer.start_presentation
        (TemporalSynchronizer.init [⟨1, "audio_1.mp3", 5, "hello"⟩] true))))).state.is_playing
        = true := by
  decide

/-- Claim C1 (amended): if `InterruptForQuestion` is issued while the
presentation is live (`is_playing`, whether currently `Playing` or
`Paused`) and then `ResumeAfterQuestion` is issued, the final state is
`Playing` with the question-mode flag cleared and `current_slide` equal to
its value before the interrupt; the pre-interrupt `Paused` intent is not
restored — resume-after-question always resumes playback. -/
theorem C1_interrupt_resume (t : TemporalSynchronizer)
    (h : t.state.is_playing = true) :
    (t.interrupt_for_question.resume_after_question).state.is_playing = true ∧
    (t.interrupt_for_question.resume_after_question).state.is_paused = false ∧
    (t.interrupt_for_question.resume_after_question).state.in_question_mode = false ∧
    (t.interrupt_for_question.resume_after_question).state.current_slide
      = t.state.current_slide := by
  simp [TemporalSynchronizer.interrupt_for_question,
    TemporalSynchronizer.resume_after_question, TemporalSynchronizer.pause,
    TemporalSynchronizer.resume, h]

theorem C1_interrupt_resume_witness :
    (TemporalSynchronizer.start_presentation
        (TemporalSynchronizer.init [⟨1, "audio_1.mp3", 5, "hello"⟩] true)).state.is_playing
      = true ∧
    (((TemporalSynchronizer.start_presentation
        (TemporalSynchronizer.init [⟨1, "audio_1.mp3", 5, "hello"⟩]
          true)).interrupt_for_question.resume_after_question).state.is_playing = true ∧
      ((TemporalSynchronizer.start_presentation
        (TemporalSynchronizer.init [⟨1, "audio_1.mp3", 5, "hello"⟩]
          true)).interrupt_for_question.resume_after_question).state.is_paused = false ∧
      ((TemporalSynchronizer.start_presentation
        (TemporalSynchronizer.init [⟨1, "audio_1.mp3", 5, "hello"⟩]
          true)).interrupt_for_question.resume_after_question).state.in_question_mode = false ∧
      ((TemporalSynchronizer.start_presentation
        (TemporalSynchronizer.init [⟨1, "audio_1.mp3", 5, "hello"⟩]
          true)).interrupt_for_question.resume_after_question).state.current_slide
        = (TemporalSynchronizer.start_presentation
            (TemporalSynchronizer.init [⟨1, "audio_1.mp3", 5, "hello"⟩]
              true)).state.current_slide) :=
  ⟨by decide,
   C1_interrupt_resume
     (TemporalSynchronizer.start_presentation
       (TemporalSynchronizer.init [⟨1, "audio_1.mp3", 5, "hello"⟩] true))
     (by decide)⟩

/-- Claim C2 (as stated, refuted): the round-trip is claimed for *every*
non-empty `S`/`N`/`A`/`M`, image bytes included.  A slide whose
`image_data` is the *empty* byte string is a counterexample: `to_dict`'s
`if self.image_data` truthiness treats `b""` like `None` and stores no
base64 text, so the reloaded slide comes back with `image_data = None ≠
b""`.  All four inputs here are non-empty lists / a concrete metadata
value, as the claim requires. -/
theorem C2_counterexample :
    ([⟨1, "t", "c", "", some []⟩] : List Slide) ≠ [] ∧
    ([⟨1, "n", 2⟩] : List SlideNarration) ≠ [] ∧
    ([⟨1, "a.mp3", 2, "n"⟩] : List AudioSegment) ≠ [] ∧
    load_presentation_data
        (save_presentation_data [⟨1, "t", "c", "", some []⟩]
          [⟨1, "n", 2⟩] [⟨1, "a.mp3", 2, "n"⟩] "meta")
      ≠ Except.ok ⟨[⟨1, "t", "c", "", some []⟩],
          [⟨1, "n", 2⟩], [⟨1, "a.mp3", 2, "n"⟩], "meta"⟩ := by
  refine ⟨by simp, by simp, by simp, ?_⟩
  intro hcontra
  have : load_presentation_data
      (save_presentation_data ([⟨1, "t", "c", "", some []⟩] : List Slide)
        [⟨1, "n", 2⟩] [⟨1, "a.mp3", 2, "n"⟩] "meta")
      = Except.ok ⟨[⟨1, "t", "c", "", (none : Option (List Nat))⟩],
          [⟨1, "n", 2⟩], [⟨1, "a.mp3", 2, "n"⟩], "meta"⟩ := rfl
  rw [this] at hcontra
  simp [LoadedPresentation.mk.injEq] at hcontra

/-- Claim C2 (amended): for every non-empty list of slides `S`, narrations
`N`, audio segments `A` and metadata `M`, loading after saving
round-trips field-for-field — provided each slide's optional image is
well-formed (absent, or a non-empty byte string; empty image bytes are
collapsed to `None` by the save path's truthiness check).  Optional image
bytes are restored through base64 encoding. -/
theorem C2_roundtrip {μ : Type} (S : List Slide) (N : List SlideNarration)
    (A : List AudioSegment) (M : μ)
    (_hS : S ≠ []) (_hN : N ≠ []) (hA : A ≠ [])
    (himg : ∀ s ∈ S, validImage s.image_data) :
    load_presentation_data (save_presentation_data S N A M) =
      Except.ok ⟨S, N, A, M⟩ := by
  simp only [save_presentation_data, load_presentation_data]
  rw [if_neg hA]
  have hslides : (S.map Slide.to_dict).map Slide.from_dict = S := by
    rw [List.map_map]
    have : ∀ s ∈ S, (Slide.from_dict ∘ Slide.to_dict) s = id s := fun s hs =>
      slide_from_dict_to_dict s (himg s hs)
    rw [List.map_congr_left this, List.map_id]
  have hnarr : (N.map SlideNarration.to_dict).map SlideNarration.from_dict = N := by
    rw [List.map_map]
    have : ∀ n ∈ N, (SlideNarration.from_dict ∘ SlideNarration.to_dict) n = id n :=
      fun n _ => narration_from_dict_to_dict n
    rw [List.map_congr_left this, List.map_id]
  have haudio : (A.map AudioSegment.to_dict).map AudioSegment.from_dict = A := by
    rw [List.map_map]
    have : ∀ a ∈ A, (AudioSegment.from_dict ∘ AudioSegment.to_dict) a = id a :=
      fun a _ => audio_segment_from_dict_to_dict a
    rw [List.map_congr_left this, List.map_id]
  rw [hslides, hnarr, haudio]

theorem C2_roundtrip_witness :
    (([⟨1, "t", "c", "", some [0, 255]⟩] : List Slide) ≠ [] ∧
      ([⟨1, "n", 2⟩] : List SlideNarration) ≠ [] ∧
      ([⟨1, "a.mp3", 2, "n"⟩] : List AudioSegment) ≠ [] ∧
      ∀ s ∈ ([⟨1, "t", "c", "", some [0, 255]⟩] : List Slide), validImage s.image_data) ∧
    load_presentation_data
        (save_presentation_data [⟨1, "t", "c", "", some [0, 255]⟩]
          [⟨1, "n", 2⟩] [⟨1, "a.mp3", 2, "n"⟩] "meta")
      = Except.ok ⟨[⟨1, "t", "c", "", some [0, 255]⟩],
          [⟨1, "n", 2⟩], [⟨1, "a.mp3", 2, "n"⟩], "meta"⟩ :=
  ⟨⟨by decide, by decide, by decide, by decide⟩,
   C2_roundtrip [⟨1, "t", "c", "", some [0, 255]⟩] [⟨1, "n", 2⟩]
     [⟨1, "a.mp3", 2, "n"⟩] "meta" (by decide) (by decide) (by decide) (by decide)⟩

/-- Claim C3 (confirmed): in a background audio-generation batch over 5
narrations where the synthesis call raises for slide 3 (`results[2] =
none`) and succeeds for the others, the batch finishes with
`ready = [true, true, false, true, true]` and `complete = true`; one
slide's failure leaves only its own flag false without aborting the rest,
and the single `complete = true` write is the last one, after all five
per-slide attempts (five earlier writes, each with `complete = false`). -/
theorem C3_partial_failure (a₁ a₂ a₄ a₅ : AudioSegment) :
    (generate_audio_background [some a₁, some a₂, none, some a₄, some a₅]).1
      = [true, true, false, true, true] ∧
    (generate_audio_background [some a₁, some a₂, none, some a₄, some a₅]).2.getLast?
      = some { ready := [true, true, false, true, true], complete := true } ∧
    (∀ w ∈ (generate_audio_background
        [some a₁, some a₂, none, some a₄, some a₅]).2.dropLast, w.complete = false) ∧
    (generate_audio_background [some a₁, some a₂, none, some a₄, some a₅]).2.length = 6 := by
  refine ⟨rfl, rfl, ?_, rfl⟩
  intro w hw
  simp only [generate_audio_background, audioBatchLoop, List.replicate,
    List.set] at hw
  fin_cases hw <;> rfl

/-- Claim C4 (confirmed): for every valid slide deck — a file whose
lowercased extension is `.pdf`, `.pptx` or `.ppt`, seen through what the
corresponding library extracts — `parse` succeeds with exactly one
`Slide` per page/slide of the document, and the slide numbers are exactly
`1..N`, 1-based and dense (`List.range' 1 N`), with no gaps or repeats. -/
theorem C4_dense_indices (use_vision : Bool) (ext : String)
    (pdf_doc : List PdfPage) (pptx_doc : List PptxSlideSrc)
    (h : pyLower ext = ".pdf" ∨ pyLower ext = ".pptx" ∨ pyLower ext = ".ppt") :
    ∃ slides : List Slide,
      SlideParser.parse use_vision ext pdf_doc pptx_doc = .ok slides ∧
      (pyLower ext = ".pdf" → slides.length = pdf_doc.length) ∧
      (pyLower ext ≠ ".pdf" → slides.length = pptx_doc.length) ∧
      slides.map Slide.slide_number = List.range' 1 slides.length := by
  rcases h with h | h | h
  · refine ⟨SlideParser.parse_pdf use_vision pdf_doc, ?_, ?_, ?_, ?_⟩
    · simp [SlideParser.parse, h]
    · intro
      exact parsePdfPages_length use_vision pdf_doc 1
    · intro hne
      exact absurd h hne
    · rw [SlideParser.parse_pdf, parsePdfPages_numbers, parsePdfPages_length]
  · refine ⟨SlideParser.parse_pptx use_vision pptx_doc, ?_, ?_, ?_, ?_⟩
    · simp [SlideParser.parse, h]
    · intro hpdf
      rw [h] at hpdf
      simp at hpdf
    · intro
      exact parsePptxSlides_length use_vision pptx_doc 1
    · rw [SlideParser.parse_pptx, parsePptxSlides_numbers, parsePptxSlides_length]
  · refine ⟨SlideParser.parse_pptx use_vision pptx_doc, ?_, ?_, ?_, ?_⟩
    · simp [SlideParser.parse, h]
    · intro hpdf
      rw [h] at hpdf
      simp at hpdf
    · intro
      exact parsePptxSlides_length use_vision pptx_doc 1
    · rw [SlideParser.parse_pptx, parsePptxSlides_numbers, parsePptxSlides_length]

theorem C4_dense_indices_witness :
    (pyLower ".pdf" = ".pdf" ∨ pyLower ".pdf" = ".pptx" ∨ pyLower ".pdf" = ".ppt") ∧
    (∃ slides : List Slide,
      SlideParser.parse false ".pdf" [⟨"Title\nBody", []⟩, ⟨"Second", []⟩] []
        = .ok slides ∧
      (pyLower ".pdf" = ".pdf" →
        slides.length = ([⟨"Title\nBody", []⟩, ⟨"Second", []⟩] : List PdfPage).length) ∧
      (pyLower ".pdf" ≠ ".pdf" → slides.length = ([] : List PptxSlideSrc).length) ∧
      slides.map Slide.slide_number = List.range' 1 slides.length) :=
  ⟨by decide,
   C4_dense_indices false ".pdf" [⟨"Title\nBody", []⟩, ⟨"Second", []⟩] [] (by decide)⟩

/-- Claim C5 (code bug): the claim — in both slide-by-slide and
continuous mode, `generate_narration` returns exactly one `Narration` per
input slide, order preserved, slide numbers matching positionally — is
the spec's contract, but the code cannot meet it in slide-by-slide mode
with vision enabled: `_generate_single_narration` reads
`slide.image_data_compressed`, an attribute the `Slide` dataclass does
not have and that nothing in the repository ever assigns, so the first
slide raises `AttributeError` and no narration batch is returned.  At the
same one-slide batch, the same call with vision disabled — and the
continuous mode, vision on or off — return exactly the claimed batch. -/
theorem C5_vision_attribute_error :
    generate_narration "slide_by_slide" true (fun _ _ _ => "Hello there.") []
        [⟨1, "t", "c", "", none⟩] none
      = .error ⟨"AttributeError", "Slide object has no attribute image_data_compressed"⟩ ∧
    generate_narration "slide_by_slide" false (fun _ _ _ => "Hello there.") []
        [⟨1, "t", "c", "", none⟩] none
      = .ok [⟨1, "Hello there.", estimatedDurationOf "Hello there."⟩] ∧
    generate_narration "continuous" true (fun _ _ _ => "Hello there.")
        [⟨1, "Hello there."⟩] [⟨1, "t", "c", "", none⟩] none
      = .ok [⟨1, "Hello there.", estimatedDurationOf "Hello there."⟩] := by
  exact ⟨rfl, rfl, rfl⟩

/-- Claim C6 (confirmed): in continuous narration mode (both the
text-only and the multimodal path share the response post-processing), if
a slide's number is missing from the external service's structured
response, the output for that slide is the empty narration marked as
truncated (`"" ++ " (truncated)"`); more generally, the truncation marker
is appended exactly to the response texts that do not end with a trailing
period. -/
theorem C6_truncation_marker (slides : List Slide)
    (narration_data : List NarrEntry) (i : Nat) (s : Slide)
    (hs : slides.get? i = some s) :
    (narration_data.find? (fun item => item.slide_number = s.slide_number) = none →
      ((generate_continuous_narration_text_only narration_data slides).get? i).map
          SlideNarration.narration_text = some (" (truncated)") ∧
      ((generate_continuous_narration_multimodal narration_data slides).get? i).map
          SlideNarration.narration_text = some (" (truncated)")) ∧
    (∀ e : NarrEntry,
      narration_data.find? (fun item => item.slide_number = s.slide_number) = some e →
      ((generate_continuous_narration_text_only narration_data slides).get? i).map
          SlideNarration.narration_text
        = some (if pyEndsWith e.narration "." then e.narration
            else e.narration ++ " (truncated)") ∧
      ((generate_continuous_narration_multimodal narration_data slides).get? i).map
          SlideNarration.narration_text
        = some (if pyEndsWith e.narration "." then e.narration
            else e.narration ++ " (truncated)")) := by
  have key := buildContinuousNarrations_get? slides narration_data i s hs
  constructor
  · intro hnone
    rw [hnone] at key
    exact ⟨key, key⟩
  · intro e he
    rw [he] at key
    exact ⟨key, key⟩

theorem C6_truncation_marker_witness :
    ([⟨1, "t1", "c1", "", none⟩, ⟨2, "t2", "c2", "", none⟩] : List Slide).get? 1
      = some ⟨2, "t2", "c2", "", none⟩ ∧
    (([⟨1, "Hello there"⟩] : List NarrEntry).find?
        (fun item => item.slide_number = (2 : Nat)) = none →
      ((generate_continuous_narration_text_only [⟨1, "Hello there"⟩]
          [⟨1, "t1", "c1", "", none⟩, ⟨2, "t2", "c2", "", none⟩]).get? 1).map
          SlideNarration.narration_text = some (" (truncated)") ∧
      ((generate_continuous_narration_multimodal [⟨1, "Hello there"⟩]
          [⟨1, "t1", "c1", "", none⟩, ⟨2, "t2", "c2", "", none⟩]).get? 1).map
          SlideNarration.narration_text = some (" (truncated)")) ∧
    (∀ e : NarrEntry,
      ([⟨1, "Hello there"⟩] : List NarrEntry).find?
        (fun item => item.slide_number = (2 : Nat)) = some e →
      ((generate_continuous_narration_text_only [⟨1, "Hello there"⟩]
          [⟨1, "t1", "c1", "", none⟩, ⟨2, "t2", "c2", "", none⟩]).get? 1).map
          SlideNarration.narration_text
        = some (if pyEndsWith e.narration "." then e.narration
            else e.narration ++ " (truncated)") ∧
      ((generate_continuous_narration_multimodal [⟨1, "Hello there"⟩]
          [⟨1, "t1", "c1", "", none⟩, ⟨2, "t2", "c2", "", none⟩]).get? 1).map
          SlideNarration.narration_text
        = some (if pyEndsWith e.narration "." then e.narration
            else e.narration ++ " (truncated)")) :=
  ⟨rfl,
   (C6_truncation_marker [⟨1, "t1", "c1", "", none⟩, ⟨2, "t2", "c2", "", none⟩]
      [⟨1, "Hello there"⟩] 1 ⟨2, "t2", "c2", "", none⟩ rfl).1,
   (C6_truncation_marker [⟨1, "t1", "c1", "", none⟩, ⟨2, "t2", "c2", "", none⟩]
      [⟨1, "Hello there"⟩] 1 ⟨2, "t2", "c2", "", none⟩ rfl).2⟩

/-- Claim C7 (confirmed): `next_slide`, `previous_slide` and
`go_to_slide(n)` are bounded index moves over `[1, N]`, `N` the number of
audio segments: starting from any in-range index the index stays in
range; at the boundaries (`next_slide` at the last index,
`previous_slide` at index 1, `go_to_slide` with `n` out of range) the
synchronizer is left unchanged and silent (no notification, no error);
and every in-range move fires exactly the slide-changed notification with
the new index. -/
theorem C7_bounded_navigation (t : TemporalSynchronizer) (n : Nat)
    (h1 : 1 ≤ t.state.current_slide)
    (h2 : t.state.current_slide ≤ t.audio_segments.length) :
    (1 ≤ t.next_slide.1.state.current_slide ∧
      t.next_slide.1.state.current_slide ≤ t.audio_segments.length) ∧
    (1 ≤ t.previous_slide.1.state.current_slide ∧
      t.previous_slide.1.state.current_slide ≤ t.audio_segments.length) ∧
    (1 ≤ (t.go_to_slide n).1.state.current_slide ∧
      (t.go_to_slide n).1.state.current_slide ≤ t.audio_segments.length) ∧
    (t.state.current_slide = t.audio_segments.length → t.next_slide = (t, [])) ∧
    (t.state.current_slide = 1 → t.previous_slide = (t, [])) ∧
    (¬(1 ≤ n ∧ n ≤ t.audio_segments.length) → t.go_to_slide n = (t, [])) ∧
    (t.state.current_slide < t.audio_segments.length →
      t.next_slide.1.state.current_slide = t.state.current_slide + 1 ∧
      t.next_slide.2 = [t.state.current_slide + 1]) ∧
    (1 < t.state.current_slide →
      t.previous_slide.1.state.current_slide = t.state.current_slide - 1 ∧
      t.previous_slide.2 = [t.state.current_slide - 1]) ∧
    ((1 ≤ n ∧ n ≤ t.audio_segments.length) →
      (t.go_to_slide n).1.state.current_slide = n ∧ (t.go_to_slide n).2 = [n]) := by
  unfold TemporalSynchronizer.next_slide TemporalSynchronizer.previous_slide
    TemporalSynchronizer.go_to_slide
  refine ⟨?_, ?_, ?_, ?_, ?_, ?_, ?_, ?_, ?_⟩
  · split <;> simp <;> omega
  · split <;> simp <;> omega
  · split
    · next hn => simp; omega
    · simp; omega
  · intro heq
    rw [if_neg (by omega)]
  · intro heq
    rw [if_neg (by omega)]
  · intro hn
    rw [if_neg hn]
  · intro hlt
    rw [if_pos hlt]
    exact ⟨rfl, rfl⟩
  · intro hgt
    rw [if_pos (show t.state.current_slide > 1 by omega)]
    exact ⟨rfl, rfl⟩
  · intro hn
    rw [if_pos hn]
    exact ⟨rfl, rfl⟩

theorem C7_bounded_navigation_witness :
    (1 ≤ (TemporalSynchronizer.init
        [⟨1, "s1.mp3", 3, "a"⟩, ⟨2, "s2.mp3", 4, "b"⟩] true).state.current_slide ∧
      (TemporalSynchronizer.init
        [⟨1, "s1.mp3", 3, "a"⟩, ⟨2, "s2.mp3", 4, "b"⟩] true).state.current_slide
        ≤ (TemporalSynchronizer.init
        [⟨1, "s1.mp3", 3, "a"⟩, ⟨2, "s2.mp3", 4, "b"⟩] true).audio_segments.length) ∧
    ((TemporalSynchronizer.init
        [⟨1, "s1.mp3", 3, "a"⟩, ⟨2, "s2.mp3", 4, "b"⟩] true).state.current_slide
        < (TemporalSynchronizer.init
        [⟨1, "s1.mp3", 3, "a"⟩, ⟨2, "s2.mp3", 4, "b"⟩] true).audio_segments.length →
      (TemporalSynchronizer.init
        [⟨1, "s1.mp3", 3, "a"⟩, ⟨2, "s2.mp3", 4, "b"⟩]
        true).next_slide.1.state.current_slide
        = (TemporalSynchronizer.init
        [⟨1, "s1.mp3", 3, "a"⟩, ⟨2, "s2.mp3", 4, "b"⟩] true).state.current_slide + 1 ∧
      (TemporalSynchronizer.init
        [⟨1, "s1.mp3", 3, "a"⟩, ⟨2, "s2.mp3", 4, "b"⟩] true).next_slide.2
        = [(TemporalSynchronizer.init
        [⟨1, "s1.mp3", 3, "a"⟩, ⟨2, "s2.mp3", 4, "b"⟩] true).state.current_slide + 1]) :=
  ⟨⟨by decide, by decide⟩,
   (C7_bounded_navigation
     (TemporalSynchronizer.init [⟨1, "s1.mp3", 3, "a"⟩, ⟨2, "s2.mp3", 4, "b"⟩] true)
     1 (by decide) (by decide)).2.2.2.2.2.2.1⟩

/-- Claim C8 (confirmed): for every timer id `x`, calling `end_timer`
after `start_timer(x)` (at a later or equal clock value, `time.time()`
being the same clock) records exactly one `BenchmarkEvent`, appended to
the event list, with `duration_seconds = t₂ - t₁ ≥ 0`, and returns that
duration; calling `end_timer` with an id that is not a started timer
raises a `ValueError` and records nothing. -/
theorem C8_benchmark_timer (t : BenchmarkTracker) (x component operation : String)
    (metadata : List (String × String)) (t₁ t₂ : ℚ) (h : t₁ ≤ t₂) :
    ((t.start_timer x t₁).end_timer x component operation metadata t₂
      = .ok ({ t with
                start_times :=
                  (t.start_timer x t₁).start_times.filter (fun q => q.1 ≠ x)
                events := t.events ++
                  [{ component := component, operation := operation,
                     duration_seconds := t₂ - t₁, timestamp := t₂,
                     metadata := metadata }] }, t₂ - t₁) ∧
      0 ≤ t₂ - t₁ ∧
      (t.events ++
        [{ component := component, operation := operation,
           duration_seconds := t₂ - t₁, timestamp := t₂,
           metadata := metadata : BenchmarkEvent }]).length = t.events.length + 1) ∧
    (t.start_times.find? (fun p => p.1 = x) = none →
      t.end_timer x component operation metadata t₂
        = .error ⟨"ValueError", "Timer " ++ x ++ " was never started"⟩) := by
  constructor
  · refine ⟨?_, by linarith, by simp⟩
    unfold BenchmarkTracker.end_timer
    rw [show (t.start_timer x t₁).start_times = dictInsert x t₁ t.start_times from rfl,
      find?_dictInsert]
    rfl
  · intro hnone
    unfold BenchmarkTracker.end_timer
    rw [hnone]

theorem C8_benchmark_timer_witness :
    (0 : ℚ) ≤ 2 ∧
    (((⟨"s", [], []⟩ : BenchmarkTracker).start_timer "timer1" 0).end_timer
        "timer1" "SlideParser" "parse" [] 2
      = .ok ({ (⟨"s", [], []⟩ : BenchmarkTracker) with
                start_times :=
                  ((⟨"s", [], []⟩ : BenchmarkTracker).start_timer
                    "timer1" 0).start_times.filter (fun q => q.1 ≠ "timer1")
                events := ([] : List BenchmarkEvent) ++
                  [{ component := "SlideParser", operation := "parse",
                     duration_seconds := 2 - 0, timestamp := 2,
                     metadata := [] }] }, 2 - 0) ∧
      (0 : ℚ) ≤ 2 - 0 ∧
      (([] : List BenchmarkEvent) ++
        [{ component := "SlideParser", operation := "parse",
           duration_seconds := 2 - 0, timestamp := 2,
           metadata := [] : BenchmarkEvent }]).length
        = ([] : List BenchmarkEvent).length + 1) ∧
    ((⟨"s", [], []⟩ : BenchmarkTracker).start_times.find? (fun p => p.1 = "timer1")
        = none →
      (⟨"s", [], []⟩ : BenchmarkTracker).end_timer "timer1" "SlideParser" "parse" [] 2
        = .error ⟨"ValueError", "Timer " ++ "timer1" ++ " was never started"⟩) :=
  ⟨by norm_num,
   C8_benchmark_timer ⟨"s", [], []⟩ "timer1" "SlideParser" "parse" [] 0 2 (by norm_num)⟩

/-- Claim C9 (as stated, refuted half): the error raised for an
unsupported extension is the builtin `ValueError` (message `Unsupported
file format: <ext>`), not a dedicated, named `UnsupportedFormatError`
class — the repository defines no such exception type.  Concretely,
parsing a `.docx` file fails with an error whose class name is
`"ValueError" ≠ "UnsupportedFormatError"`. -/
theorem C9_counterexample :
    SlideParser.parse false ".docx" [] []
      = .error ⟨"ValueError", "Unsupported file format: .docx"⟩ ∧
    ("ValueError" : String) ≠ "UnsupportedFormatError" := by
  constructor
  · rfl
  · decide

/-- Claim C9 (amended): `parse` applied to a file whose lowercased
extension is not one of `.pdf`, `.pptx`, `.ppt` fails immediately with
`ValueError("Unsupported file format: <ext>")`, before anything else
happens: no slides are produced, and the parser performs no network call
at all (the embedding of `parse` is a pure dispatch whose unsupported
branch consults neither document oracle). -/
theorem C9_unsupported_format (use_vision : Bool) (ext : String)
    (pdf_doc : List PdfPage) (pptx_doc : List PptxSlideSrc)
    (h : pyLower ext ≠ ".pdf" ∧ pyLower ext ≠ ".pptx" ∧ pyLower ext ≠ ".ppt") :
    SlideParser.parse use_vision ext pdf_doc pptx_doc
      = .error ⟨"ValueError", "Unsupported file format: " ++ pyLower ext⟩ := by
  unfold SlideParser.parse
  rw [if_neg h.1, if_neg (by simp [h.2.1, h.2.2])]

theorem C9_unsupported_format_witness :
    (pyLower ".docx" ≠ ".pdf" ∧ pyLower ".docx" ≠ ".pptx" ∧ pyLower ".docx" ≠ ".ppt") ∧
    SlideParser.parse true ".docx" [⟨"text", [1, 2]⟩] [⟨some "T", ["b"], none⟩]
      = .error ⟨"ValueError", "Unsupported file format: " ++ pyLower ".docx"⟩ :=
  ⟨⟨by decide, by decide, by decide⟩,
   C9_unsupported_format true ".docx" [⟨"text", [1, 2]⟩] [⟨some "T", ["b"], none⟩]
     ⟨by decide, by decide, by decide⟩⟩

/-- Claim C10 (confirmed): `get_progress` is total and never divides by
zero: for a synchronizer built from an empty audio-segment list
(`total_duration = 0`) it returns `0.0` — as it does whenever
`total_duration = 0` — and otherwise it returns the sum of the completed
segments' durations (the segments before the current slide) divided by
the total duration, times 100. -/
theorem C10_progress_total (t : TemporalSynchronizer) (auto : Bool) :
    (TemporalSynchronizer.init [] auto).get_progress = 0 ∧
    (t.state.total_duration = 0 → t.get_progress = 0) ∧
    (t.state.total_duration ≠ 0 →
      t.get_progress =
        ((t.audio_segments.take (t.state.current_slide - 1)).map
          AudioSegment.duration).sum / t.state.total_duration * 100) := by
  refine ⟨rfl, ?_, ?_⟩
  · intro h0
    simp [TemporalSynchronizer.get_progress, h0]
  · intro hne
    simp [TemporalSynchronizer.get_progress, hne]

theorem C10_progress_total_witness :
    (TemporalSynchronizer.init [⟨1, "s1.mp3", 5, "x"⟩] true).state.total_duration ≠ 0 ∧
    (TemporalSynchronizer.init [⟨1, "s1.mp3", 5, "x"⟩] true).get_progress =
      (((TemporalSynchronizer.init [⟨1, "s1.mp3", 5, "x"⟩]
          true).audio_segments.take
        ((TemporalSynchronizer.init [⟨1, "s1.mp3", 5, "x"⟩]
          true).state.current_slide - 1)).map AudioSegment.duration).sum /
        (TemporalSynchronizer.init [⟨1, "s1.mp3", 5, "x"⟩]
          true).state.total_duration * 100 :=
  ⟨by norm_num [TemporalSynchronizer.init],
   (C10_progress_total (TemporalSynchronizer.init [⟨1, "s1.mp3", 5, "x"⟩] true)
     true).2.2 (by norm_num [TemporalSynchronizer.init])⟩

end PresentLM
